import Mathlib

/-!
Verification of the xiaozhi-agent session protocol engine.

Shallow embedding of the Python sources:
  - `app/server/protocol.py`  (message codec and kind predicates)
  - `app/server/websocket.py` (transport: handshake, message loop, registry)
  - `app/main.py`             (controller: audio buffering, dispatch, response delivery)

Per-session state and handlers are modelled as pure functions over an explicit
state record; the external pipeline (ASR/LLM/TTS, `app/agent/*`) is an
oracle parameter supplying results, matching its out-of-scope status in the
specification.  Message handling for one connection is strictly sequential in
the source (the websocket message loop awaits each handler before reading the
next frame), so per-session behaviour is a fold of a step function over the
incoming wire items.
-/

namespace XiaozhiAgent

/-- A JSON value, as produced by `json.loads`.  Numbers are modelled as
integers (the protocol fields the claims touch are strings, booleans and
containers; the float `1.0` default for TTS speed is modelled as `1` and is
only passed through to the external synthesis oracle). -/
inductive JVal where
  | null
  | bool (b : Bool)
  | num (n : Int)
  | str (s : String)
  | arr (xs : List JVal)
  | obj (kvs : List (String × JVal))

/-- A JSON object (Python `dict`), as an association list with the source's
insertion-order semantics. -/
abbrev Json := List (String × JVal)

/-- Python `d.get(k)`: the value at key `k`, or `None`-as-absence. -/
def jGet (j : Json) (k : String) : Option JVal :=
  (j.find? (fun p => p.1 == k)).map (·.2)

/-- Python `d.get(k, default)`. -/
def jGetD (j : Json) (k : String) (d : JVal) : JVal :=
  (jGet j k).getD d

/-- Python `k in d` for a dict. -/
def jHas (j : Json) (k : String) : Bool :=
  (jGet j k).isSome

/-- Python `d[k] = v`: replace in place if the key exists, else append. -/
def jInsert (j : Json) (k : String) (v : JVal) : Json :=
  if jHas j k then j.map (fun p => if p.1 == k then (k, v) else p)
  else j ++ [(k, v)]

/-- Python truthiness of a JSON value (`if x:`). -/
def truthy : JVal → Bool
  | .null => false
  | .bool b => b
  | .num n => n != 0
  | .str s => s != ""
  | .arr xs => !xs.isEmpty
  | .obj kvs => !kvs.isEmpty

/-- Python truthiness of `d.get(k)`-style optional values (`None` is falsy). -/
def truthyOpt : Option JVal → Bool
  | some v => truthy v
  | none => false

/-- Python `x == "lit"` where `x` is an optional JSON value and `"lit"` a
string literal (str-enum members compare as their string values; comparison
with `None` or a non-string value is `False`). -/
def isStrV (v : Option JVal) (s : String) : Bool :=
  match v with
  | some (.str t) => t == s
  | _ => false

/-- `needle` occurs as a contiguous substring of `hay`. -/
def strIsSubstr (needle hay : String) : Bool :=
  hay.data.tails.any (fun t => needle.data.isPrefixOf t)

/-- Python `k in x` for an arbitrary value `x`: key membership for dicts,
substring test for strings, element membership (string equality) for lists,
and a `TypeError` (modelled as `none`) for non-iterable values. -/
def pyContains (v : JVal) (k : String) : Option Bool :=
  match v with
  | .obj kvs => some (jHas kvs k)
  | .str s => some (strIsSubstr k s)
  | .arr xs => some (xs.any (fun x => match x with | .str t => t == k | _ => false))
  | _ => none

/-- Outcome of `ProtocolParser.parse_message` (protocol.py:259-285).
`malformed` is the `ValueError` the message loop catches; `typeError` is the
uncaught `TypeError` raised by `"type" not in message` on a non-iterable
JSON value. -/
inductive ParseOutcome where
  | ok (v : JVal)
  | malformed
  | typeError

/-- `ProtocolParser.parse_message` (protocol.py:259-285).  The raw text
payload is represented by its `json.loads` result: `none` when the payload is
not valid JSON. -/
def parse_message : Option JVal → ParseOutcome
  | none => .malformed
  | some v =>
    match pyContains v "type" with
    | none => .typeError
    | some true => .ok v
    | some false => .malformed

/-- `ProtocolParser.is_hello_message` (protocol.py:287-302). -/
def is_hello_message (m : Json) : Bool :=
  isStrV (jGet m "type") "hello" && jHas m "transport" && jHas m "audio_params"

/-- `ProtocolParser.is_listen_start_message` (protocol.py:304-319). -/
def is_listen_start_message (m : Json) : Bool :=
  isStrV (jGet m "type") "listen" && isStrV (jGet m "state") "start" && jHas m "mode"

/-- `ProtocolParser.is_listen_stop_message` (protocol.py:321-335). -/
def is_listen_stop_message (m : Json) : Bool :=
  isStrV (jGet m "type") "listen" && isStrV (jGet m "state") "stop"

/-- `ProtocolMessage.create_tts_start_message` (protocol.py:78-89). -/
def create_tts_start_message : Json :=
  [("type", .str "tts"), ("state", .str "start")]

/-- `ProtocolMessage.create_tts_stop_message` (protocol.py:91-102). -/
def create_tts_stop_message : Json :=
  [("type", .str "tts"), ("state", .str "stop")]

/-- `ProtocolMessage.create_tts_sentence_message` (protocol.py:104-119). -/
def create_tts_sentence_message (text : String) : Json :=
  [("type", .str "tts"), ("state", .str "sentence_start"), ("text", .str text)]

/-- `ProtocolMessage.create_stt_message` (protocol.py:121-135). -/
def create_stt_message (text : JVal) : Json :=
  [("type", .str "stt"), ("text", text)]

/-- `ProtocolMessage.create_llm_emotion_message` with `text=None`
(protocol.py:137-157); the optional `text` key is not added. -/
def create_llm_emotion_message (emotion : JVal) : Json :=
  [("type", .str "llm"), ("emotion", emotion)]

/-- `ProtocolMessage.create_iot_command_message` (protocol.py:159-173). -/
def create_iot_command_message (commands : JVal) : Json :=
  [("type", .str "iot"), ("commands", commands)]

/-- `ProtocolMessage.create_text_response_message` (protocol.py:175-189). -/
def create_text_response_message (text : JVal) : Json :=
  [("type", .str "text_response"), ("text", text)]

/-- `ProtocolMessage.create_function_call_response_message` (protocol.py:191-207). -/
def create_function_call_response_message (fn args : JVal) : Json :=
  [("type", .str "function_call"), ("function", fn), ("arguments", args)]

/-- `ProtocolMessage.create_listen_start_response` (protocol.py:209-224). -/
def create_listen_start_response (mode : JVal) : Json :=
  [("type", .str "listen"), ("state", .str "start"), ("mode", mode)]

/-- Combined per-session state across the two layers that hold it:
the transport-level `ClientSession` (websocket.py) and the controller-side
dictionaries of `Application` (main.py), both keyed by the same session id.
`alive` records that the message loop of `_handle_messages` is still running
(it stops when an uncaught exception tears the connection down). -/
structure FullState where
  /-- the `_handle_messages` loop has not been terminated by an uncaught error -/
  alive : Bool
  /-- the session is present in `WebSocketServer.sessions` -/
  wsRegistered : Bool
  /-- `ClientSession.listening` -/
  wsListening : Bool
  /-- `ClientSession.listen_mode` -/
  wsListenMode : Option JVal
  /-- `Application.session_audio_buffers[session_id]` (`none` = key absent);
  frames are opaque byte strings, identified by numbers -/
  buffer : Option (List Nat)
  /-- `Application.active_sessions[session_id]` (`none` = key absent) -/
  info : Option Json

/-- Observable actions of the handlers: messages and audio sent to the client
and invocations of the external agent pipeline. -/
inductive Effect where
  /-- `ws_server.send_message(session_id, m)` reached the socket -/
  | sendMsg (m : Json)
  /-- `ws_server.send_audio(session_id, frame)` reached the socket -/
  | sendAudio (frame : Nat)
  /-- `agent_graph.process_audio_buffer(frames, session_id, audio_params, wake)`;
  the audio-format parameters are fixed per session and omitted -/
  | pipelineAudio (frames : List Nat) (wake : Option JVal)
  /-- `agent_graph.process_text_input(text, session_id)` -/
  | pipelineText (text : JVal)
  /-- `agent_graph.process_message(kind, m, session_id)` -/
  | pipelineMessage (kind : String) (m : Json)
  /-- `agent_graph.process_function_call(fn, args, session_id)` -/
  | pipelineFunctionCall (fn args : JVal)

/-- Oracle for the external agent pipeline (ASR/LLM/TTS, out of scope in the
specification): the result dictionaries its entry points return, and the
`(sentence_text, audio_frame)` stream of `tts_node.generate_speech_frames`.
A `none` audio chunk stands for Python `None` (or an empty, falsy byte
string). -/
structure Pipeline where
  audioResult : List Nat → Option JVal → Json
  textResult : JVal → Json
  fnResult : JVal → JVal → Json
  speechFrames : JVal → JVal → JVal → List (Option String × Option Nat)

/-- `WebSocketServer.send_message` (websocket.py:146-165): delivered only when
the session id is still in the registry. -/
def sendTo (s : FullState) (m : Json) : List Effect :=
  if s.wsRegistered then [.sendMsg m] else []

/-- `WebSocketServer.send_audio` (websocket.py:167-186). -/
def sendAudioTo (s : FullState) (f : Nat) : List Effect :=
  if s.wsRegistered then [.sendAudio f] else []

/-- The per-frame send loop of `Application.send_agent_response`
(main.py:324-337): a sentence-start message for each truthy sentence marker,
then the associated audio chunk when truthy.  (The `current_sentence`
variable of the source is written but never read and is omitted.) -/
def ttsFrameEffects (s : FullState) (frames : List (Option String × Option Nat)) : List Effect :=
  frames.flatMap (fun p =>
    (match p.1 with
     | some t => if t != "" then sendTo s (create_tts_sentence_message t) else []
     | none => []) ++
    (match p.2 with
     | some f => sendAudioTo s f
     | none => []))

/-- The four unconditional result-field sends at the head of
`Application.send_agent_response` (main.py:252-285): transcription, IoT
commands, emotion, function call.  A non-dict truthy `function_call` value
from the external pipeline (which would raise in the source) is modelled with
null fields. -/
def sarHead (s : FullState) (result : Json) : List Effect :=
  (if truthyOpt (jGet result "transcription") then
     sendTo s (create_stt_message (jGetD result "transcription" JVal.null)) else []) ++
  (if truthyOpt (jGet result "processed_iot_commands") then
     sendTo s (create_iot_command_message (jGetD result "processed_iot_commands" JVal.null)) else []) ++
  (if truthyOpt (jGet result "emotion") then
     sendTo s (create_llm_emotion_message (jGetD result "emotion" JVal.null)) else []) ++
  (if truthyOpt (jGet result "function_call") then
     (match jGetD result "function_call" JVal.null with
      | .obj fd =>
        sendTo s (create_function_call_response_message
          (jGetD fd "name" JVal.null) (jGetD fd "arguments" JVal.null))
      | _ => sendTo s (create_function_call_response_message JVal.null JVal.null))
   else [])

/-- The `keep_listening` epilogue of both response branches
(main.py:294-301 and 345-353): a listen-start response when the result asks
to keep listening and the controller records the session in auto mode. -/
def keepListeningEffects (s : FullState) (result : Json) : List Effect :=
  if truthy (jGetD result "keep_listening" (.bool false)) &&
     isStrV (jGet (s.info.getD []) "listen_mode") "auto" then
    sendTo s (create_listen_start_response (JVal.str "auto"))
  else []

/-- The TTS branch of `Application.send_agent_response` (main.py:305-343):
TTS start, the generated sentence/audio stream, TTS stop.  `voice` and
`speed` follow `tts_data.get(...) if tts_data else default`; a truthy
non-dict `tts_data` (which would raise in the source) is modelled by the
defaults. -/
def ttsBranchEffects (s : FullState) (π : Pipeline) (result : Json) : List Effect :=
  sendTo s create_tts_start_message ++
  ttsFrameEffects s
    (π.speechFrames (jGetD result "response_text" JVal.null)
      (match jGetD result "tts_data" (.obj []) with
       | .obj kvs => if kvs.isEmpty then JVal.str "alloy" else jGetD kvs "voice" (.str "alloy")
       | _ => JVal.str "alloy")
      (match jGetD result "tts_data" (.obj []) with
       | .obj kvs => if kvs.isEmpty then JVal.num 1 else jGetD kvs "speed" (.num 1)
       | _ => JVal.num 1)) ++
  sendTo s create_tts_stop_message

/-- `Application.send_agent_response` (main.py:244-353): the head sends, then
either the `skip_tts` text-response branch, the TTS branch, or nothing when
the result carries no truthy `response_text`. -/
def send_agent_response (s : FullState) (π : Pipeline) (result : Json) : List Effect :=
  sarHead s result ++
  (if truthy (jGetD result "skip_tts" (.bool false)) && truthyOpt (jGet result "response_text") then
     sendTo s (create_text_response_message (jGetD result "response_text" JVal.null)) ++
       keepListeningEffects s result
   else if truthyOpt (jGet result "response_text") then
     ttsBranchEffects s π result ++ keepListeningEffects s result
   else [])

/-- `Application.process_audio_buffer` (main.py:206-242): a no-op when the
buffer key is absent or the buffer is empty, or when `get_session` finds no
registered websocket session (in which case the buffer is NOT cleared);
otherwise the buffer is cleared, handed to the pipeline, and the result is
delivered. -/
def process_audio_buffer (s : FullState) (π : Pipeline) (wake : Option JVal) :
    FullState × List Effect :=
  match s.buffer with
  | none => (s, [])
  | some buf =>
    if buf.isEmpty then (s, [])
    else if s.wsRegistered then
      (({ s with buffer := some [] }),
        Effect.pipelineAudio buf wake ::
          send_agent_response { s with buffer := some [] } π (π.audioResult buf wake))
    else (s, [])

/-- `Application.handle_audio` (main.py:42-64): append the frame (creating
the buffer entry if needed), then flush in realtime mode, or in auto mode
once the buffer holds at least 10 frames. -/
def handle_audio (s : FullState) (π : Pipeline) (f : Nat) : FullState × List Effect :=
  let s1 : FullState := { s with buffer := some ((s.buffer.getD []) ++ [f]) }
  if isStrV (jGet (s1.info.getD []) "listen_mode") "realtime" = true ∨
     (isStrV (jGet (s1.info.getD []) "listen_mode") "auto" = true ∧
       10 ≤ ((s.buffer.getD []) ++ [f]).length) then
    process_audio_buffer s1 π none
  else (s1, [])

/-- `Application.handle_message` (main.py:66-166): dispatch on the `type`
field; unrecognized types fall through silently. -/
def handle_message (s : FullState) (π : Pipeline) (m : Json) : FullState × List Effect :=
  if isStrV (jGet m "type") "listen" then
    if isStrV (jGet m "state") "start" then
      ({ s with buffer := some [],
                info := some [("listen_mode", jGetD m "mode" (.str "auto")),
                              ("listening", .bool true)] }, [])
    else if isStrV (jGet m "state") "stop" then
      let s1 : FullState :=
        match s.info with
        | some inf => { s with info := some (jInsert inf "listening" (.bool false)) }
        | none => s
      if (s1.buffer.getD []).isEmpty then (s1, [])
      else process_audio_buffer s1 π none
    else if isStrV (jGet m "state") "detect" then
      if isStrV (jGet m "source") "text" then
        (s, Effect.pipelineText (jGetD m "text" (.str "")) ::
              send_agent_response s π (π.textResult (jGetD m "text" (.str ""))))
      else
        match s.buffer with
        | some _ => process_audio_buffer s π (some (jGetD m "text" (.str "")))
        | none => (s, [])
    else (s, [])
  else if isStrV (jGet m "type") "abort" then
    let s1 : FullState :=
      match s.buffer with
      | some _ => { s with buffer := some [] }
      | none => s
    (s1, sendTo s1 create_tts_stop_message)
  else if isStrV (jGet m "type") "iot" then
    if jHas m "descriptors" then
      ({ s with info := some (jInsert (s.info.getD []) "descriptors"
                  (jGetD m "descriptors" (.arr []))) },
       [Effect.pipelineMessage "iot" m])
    else if jHas m "states" then
      ({ s with info := some (jInsert (s.info.getD []) "states"
                  (jGetD m "states" (.obj []))) },
       [Effect.pipelineMessage "iot" m])
    else if jHas m "commands" then (s, [Effect.pipelineMessage "iot" m])
    else (s, [])
  else if isStrV (jGet m "type") "function_call" then
    (s, Effect.pipelineFunctionCall (jGetD m "function" (.str ""))
          (jGetD m "arguments" (.obj [])) ::
          send_agent_response s π
            (π.fnResult (jGetD m "function" (.str "")) (jGetD m "arguments" (.obj []))))
  else (s, [])

/-- One inbound wire unit of the message loop: a binary frame or a text
payload (given by its `json.loads` result, `none` when invalid JSON). -/
inductive WireItem where
  | binary (f : Nat)
  | text (raw : Option JVal)

/-- `WebSocketServer._handle_disconnect` (websocket.py:343-356) as invoked
from the `finally` of `_handle_connection` after an uncaught error: the
registry entry is removed and `Application.handle_disconnect` (main.py:190-204)
deletes the controller entries; the message loop is over. -/
def teardown (s : FullState) : FullState :=
  if s.wsRegistered then
    { s with alive := false, wsRegistered := false, buffer := none, info := none }
  else { s with alive := false }

/-- One iteration of `WebSocketServer._handle_messages` (websocket.py:312-341)
wired to the `Application` handlers (registered in `Application.setup_handlers`).
Binary data is forwarded to `handle_audio` only while the transport-level
`listening` flag is set.  Text data goes through `parse_message`; a
`ValueError` is caught and the message dropped, while an uncaught
`TypeError`/`AttributeError` (non-dict JSON payload) tears the session down. -/
def handle_wire (s : FullState) (π : Pipeline) (w : WireItem) : FullState × List Effect :=
  if s.alive then
    match w with
    | .binary f => if s.wsListening then handle_audio s π f else (s, [])
    | .text raw =>
      match parse_message raw with
      | .malformed => (s, [])
      | .typeError => (teardown s, [])
      | .ok (.obj kvs) =>
        handle_message
          (if is_listen_start_message kvs then
             { s with wsListening := true, wsListenMode := jGet kvs "mode" }
           else if is_listen_stop_message kvs then
             { s with wsListening := false }
           else s) π kvs
      | .ok _ => (teardown s, [])
  else (s, [])

/-- Sequential processing of a list of wire items (the source's message loop
awaits each handler before reading the next item, so per-session behaviour is
this fold). -/
def runWire (π : Pipeline) : FullState → List WireItem → FullState × List Effect
  | s, [] => (s, [])
  | s, w :: ws =>
    ((runWire π (handle_wire s π w).1 ws).1,
      (handle_wire s π w).2 ++ (runWire π (handle_wire s π w).1 ws).2)

/-- The per-session state right after `Application.handle_connect`
(main.py:168-188) and `ClientSession.__init__` (websocket.py:26-46): admitted,
not listening, empty buffer. -/
def connectedState (clientId deviceId : String) : FullState :=
  { alive := true, wsRegistered := true, wsListening := false, wsListenMode := none,
    buffer := some [],
    info := some [("client_id", .str clientId), ("device_id", .str deviceId),
                  ("listening", .bool false), ("listen_mode", .null)] }

/-- A concrete pipeline oracle returning empty results, used for closed
evaluations. -/
def nullPipeline : Pipeline :=
  { audioResult := fun _ _ => [], textResult := fun _ => [],
    fnResult := fun _ _ => [], speechFrames := fun _ _ _ => [] }

/-- `WS_PROTOCOL_VERSION` (config.py:17). -/
def WS_PROTOCOL_VERSION : Nat := 1

/-- `str(WS_PROTOCOL_VERSION)`, the header value `_handle_connection`
compares against (websocket.py:229). -/
def expectedVersionStr : String := "1"

/-- The connection headers `_handle_connection` reads (websocket.py:222-250). -/
structure ConnHeaders where
  protocolVersion : Option String
  authorization : Option String
  clientId : Option String
  deviceId : Option String

/-- What the single `recv` of `_wait_for_hello` (websocket.py:280-310)
produced: a timeout, invalid JSON, or a parsed JSON value. -/
inductive HelloOutcome where
  | timeout
  | invalidJson
  | message (v : JVal)

/-- Classification of the hello wait: `ok` admits; `notHello` makes
`_wait_for_hello` return `False` (timeout, invalid JSON, or a JSON dict that
fails `is_hello_message`); `crash` is the uncaught `AttributeError` raised by
`is_hello_message` on a non-dict JSON value. -/
inductive HelloCheck where
  | ok
  | notHello
  | crash
deriving DecidableEq

/-- `WebSocketServer._wait_for_hello` (websocket.py:280-310). -/
def wait_for_hello : HelloOutcome → HelloCheck
  | .timeout => .notHello
  | .invalidJson => .notHello
  | .message (.obj kvs) => if is_hello_message kvs then .ok else .notHello
  | .message _ => .crash

/-- Observable outcome of the handshake part of
`WebSocketServer._handle_connection` (websocket.py:215-278). -/
structure HandshakeResult where
  /-- `websocket.close(code, reason)` performed during the handshake;
  `session.close()` uses the websocket default `(1000, "")` -/
  closeCode : Option (Nat × String)
  /-- a `ClientSession` object was constructed (websocket.py:253) -/
  sessionCreated : Bool
  /-- the session was present in `WebSocketServer.sessions` while the server
  waited for the client hello (it is inserted at websocket.py:254, before
  `_wait_for_hello`) -/
  registeredDuringHello : Bool
  /-- the handshake succeeded: server hello sent and the message loop of
  `_handle_messages` reached (so audio/message handlers may fire) -/
  admitted : Bool
  /-- the session is still registered when the handshake code is done
  (on hello failure it is deleted at websocket.py:261) -/
  registeredAfter : Bool
  /-- the connect notification `on_connect_handler` fired (websocket.py:268-269) -/
  connectFired : Bool
deriving DecidableEq

/-- A handshake rejection before any session exists: close with the given
code/reason, nothing created, nothing registered, no handler fired. -/
def rejectResult (code : Nat) (reason : String) : HandshakeResult :=
  { closeCode := some (code, reason), sessionCreated := false,
    registeredDuringHello := false, admitted := false,
    registeredAfter := false, connectFired := false }

/-- The registration-and-hello phase of `_handle_connection`
(websocket.py:252-272): the session is created and registered first, then the
hello wait decides admission.  On `notHello` the session is closed with the
websocket default code and removed; on `crash` the exception handler and the
`finally` disconnect path run (no explicit close code of this layer). -/
def register_and_hello (hello : HelloOutcome) : HandshakeResult :=
  match wait_for_hello hello with
  | .ok =>
    { closeCode := none, sessionCreated := true, registeredDuringHello := true,
      admitted := true, registeredAfter := true, connectFired := true }
  | .notHello =>
    { closeCode := some (1000, ""), sessionCreated := true,
      registeredDuringHello := true, admitted := false,
      registeredAfter := false, connectFired := false }
  | .crash =>
    { closeCode := none, sessionCreated := true, registeredDuringHello := true,
      admitted := false, registeredAfter := false, connectFired := false }

/-- The auth gate of `_handle_connection` (websocket.py:234-246): when
authentication is enabled the `Authorization` header (default `""`) must
start with `"Bearer "` and carry the configured secret, else the connection
is closed with code 1008. -/
def auth_and_hello (authEnabled : Bool) (secret : String) (h : ConnHeaders)
    (hello : HelloOutcome) : HandshakeResult :=
  if authEnabled then
    if ¬ (h.authorization.getD "").startsWith "Bearer " then
      rejectResult 1008 "Unauthorized"
    else if ¬ ((h.authorization.getD "").drop 7 == secret) then
      rejectResult 1008 "Unauthorized"
    else register_and_hello hello
  else register_and_hello hello

/-- `WebSocketServer._handle_connection` (websocket.py:215-278), handshake
part: a present, mismatched `Protocol-Version` header is rejected with code
1002 before anything else; an absent header only warns and proceeds. -/
def handle_connection (authEnabled : Bool) (secret : String) (h : ConnHeaders)
    (hello : HelloOutcome) : HandshakeResult :=
  match h.protocolVersion with
  | some v =>
    if v == expectedVersionStr then auth_and_hello authEnabled secret h hello
    else rejectResult 1002 "Invalid protocol version"
  | none => auth_and_hello authEnabled secret h hello

/-- An effect is a send to the client (as opposed to a pipeline invocation). -/
def Effect.isSend : Effect → Bool
  | .sendMsg _ => true
  | .sendAudio _ => true
  | _ => false

/-- The flushes (buffer hand-offs to the pipeline) among a list of effects,
each with the frames it carried. -/
def flushes (l : List Effect) : List (List Nat) :=
  l.filterMap (fun e => match e with | .pipelineAudio b _ => some b | _ => none)

/-- The effect is sending the TTS-stop (end-of-response) message. -/
def isTtsStopMsg : Effect → Bool
  | .sendMsg m => isStrV (jGet m "type") "tts" && isStrV (jGet m "state") "stop"
  | _ => false

/-- The effect is sending any TTS-type control message (start, sentence or
stop). -/
def isTtsMsg : Effect → Bool
  | .sendMsg m => isStrV (jGet m "type") "tts"
  | _ => false

/-- The effect is sending a binary audio chunk to the client. -/
def isAudioSend : Effect → Bool
  | .sendAudio _ => true
  | _ => false

theorem isStrV_eq_true {v : Option JVal} {s : String} (h : isStrV v s = true) :
    v = some (.str s) := by
  cases v with
  | none => simp [isStrV] at h
  | some x =>
    cases x <;> simp [isStrV] at h
    simp [h]

theorem jHas_of_jGet {m : Json} {k : String} {v : JVal} (h : jGet m k = some v) :
    jHas m k = true := by
  simp [jHas, h]

theorem all_isSend_sendTo (s : FullState) (m : Json) :
    (sendTo s m).all Effect.isSend = true := by
  unfold sendTo; split <;> rfl

theorem all_isSend_sendAudioTo (s : FullState) (f : Nat) :
    (sendAudioTo s f).all Effect.isSend = true := by
  unfold sendAudioTo; split <;> rfl

theorem all_isSend_append {l1 l2 : List Effect}
    (h1 : l1.all Effect.isSend = true) (h2 : l2.all Effect.isSend = true) :
    (l1 ++ l2).all Effect.isSend = true := by
  simp [List.all_append, h1, h2]

theorem all_isSend_ite {c : Prop} [Decidable c] {a b : List Effect}
    (h1 : a.all Effect.isSend = true) (h2 : b.all Effect.isSend = true) :
    (if c then a else b).all Effect.isSend = true := by
  split <;> assumption

theorem all_isSend_ttsFrameEffects (s : FullState)
    (frames : List (Option String × Option Nat)) :
    (ttsFrameEffects s frames).all Effect.isSend = true := by
  induction frames with
  | nil => rfl
  | cons p ps ih =>
    rw [ttsFrameEffects, List.flatMap_cons]
    refine all_isSend_append (all_isSend_append ?_ ?_) ih
    · match p.1 with
      | some t => exact all_isSend_ite (all_isSend_sendTo s _) rfl
      | none => rfl
    · match p.2 with
      | some f => exact all_isSend_sendAudioTo s f
      | none => rfl

theorem all_isSend_keepListening (s : FullState) (r : Json) :
    (keepListeningEffects s r).all Effect.isSend = true := by
  unfold keepListeningEffects
  exact all_isSend_ite (all_isSend_sendTo s _) rfl

theorem all_isSend_sarHead (s : FullState) (r : Json) :
    (sarHead s r).all Effect.isSend = true := by
  unfold sarHead
  refine all_isSend_append (all_isSend_append (all_isSend_append ?_ ?_) ?_) ?_
  · exact all_isSend_ite (all_isSend_sendTo s _) rfl
  · exact all_isSend_ite (all_isSend_sendTo s _) rfl
  · exact all_isSend_ite (all_isSend_sendTo s _) rfl
  · refine all_isSend_ite ?_ rfl
    match jGetD r "function_call" JVal.null with
    | .obj fd => exact all_isSend_sendTo s _
    | .null => exact all_isSend_sendTo s _
    | .bool b => exact all_isSend_sendTo s _
    | .num n => exact all_isSend_sendTo s _
    | .str t => exact all_isSend_sendTo s _
    | .arr xs => exact all_isSend_sendTo s _

theorem all_isSend_ttsBranch (s : FullState) (π : Pipeline) (r : Json) :
    (ttsBranchEffects s π r).all Effect.isSend = true := by
  unfold ttsBranchEffects
  exact all_isSend_append
    (all_isSend_append (all_isSend_sendTo s _) (all_isSend_ttsFrameEffects s _))
    (all_isSend_sendTo s _)

theorem all_isSend_sar (s : FullState) (π : Pipeline) (r : Json) :
    (send_agent_response s π r).all Effect.isSend = true := by
  unfold send_agent_response
  refine all_isSend_append (all_isSend_sarHead s r) ?_
  refine all_isSend_ite (all_isSend_append (all_isSend_sendTo s _)
    (all_isSend_keepListening s r)) ?_
  exact all_isSend_ite (all_isSend_append (all_isSend_ttsBranch s π r)
    (all_isSend_keepListening s r)) rfl

theorem flushes_nil_of_all_isSend : ∀ {l : List Effect},
    l.all Effect.isSend = true → flushes l = [] := by
  intro l h
  induction l with
  | nil => rfl
  | cons e es ih =>
    rw [List.all_cons, Bool.and_eq_true] at h
    cases e <;> simp_all [flushes, List.filterMap_cons, Effect.isSend]

theorem sar_flushes (s : FullState) (π : Pipeline) (r : Json) :
    flushes (send_agent_response s π r) = [] :=
  flushes_nil_of_all_isSend (all_isSend_sar s π r)

/-- C1: handling an abort message clears the session's audio buffer (the
buffer entry, when present, becomes empty; everything else is untouched) and
emits the TTS-stop message exactly once (not at all when the websocket
session is gone), hence at most one terminal TTS-stop results.  Message
handling for one session is strictly sequential in the source, so no response
delivery can be in flight while the abort is handled and the cancellation
clause is vacuous. -/
theorem c1_abort_clears_and_single_stop (s : FullState) (π : Pipeline) (m : Json)
    (h : isStrV (jGet m "type") "abort" = true) :
    handle_message s π m =
      ({ s with buffer := if s.buffer.isSome then some [] else none },
        if s.wsRegistered then [Effect.sendMsg create_tts_stop_message] else []) ∧
    (handle_message s π m).2.countP isTtsStopMsg ≤ 1 := by
  have ht : jGet m "type" = some (JVal.str "abort") := isStrV_eq_true h
  have hrun : handle_message s π m =
      ({ s with buffer := if s.buffer.isSome then some [] else none },
        if s.wsRegistered then [Effect.sendMsg create_tts_stop_message] else []) := by
    cases hb : s.buffer with
    | none =>
      simp only [handle_message, ht, isStrV, sendTo, hb]
      cases s
      simp_all
    | some buf => simp [handle_message, ht, isStrV, sendTo, hb]
  refine ⟨hrun, ?_⟩
  rw [hrun]
  cases hr : s.wsRegistered with
  | false => simp
  | true => simp only [if_true]; decide

/-- Closed instance of the C1 theorem: aborting in a freshly connected
session with one buffered frame. -/
theorem c1_abort_clears_and_single_stop_witness :
    handle_message { connectedState "cli" "dev" with buffer := some [7] } nullPipeline
        [("type", JVal.str "abort"), ("reason", JVal.str "user_requested")] =
      ({ { connectedState "cli" "dev" with buffer := some [7] } with
          buffer := if ({ connectedState "cli" "dev" with buffer := some [7] } :
            FullState).buffer.isSome then some [] else none },
        if ({ connectedState "cli" "dev" with buffer := some [7] } :
            FullState).wsRegistered then [Effect.sendMsg create_tts_stop_message] else []) ∧
    (handle_message { connectedState "cli" "dev" with buffer := some [7] } nullPipeline
        [("type", JVal.str "abort"), ("reason", JVal.str "user_requested")]).2.countP
        isTtsStopMsg ≤ 1 :=
  c1_abort_clears_and_single_stop _ nullPipeline _ (by decide)

/-- C5: a binary frame is forwarded to the audio handler (and so can enter
the session's buffer) only while the transport-level listening flag is true —
when it is false the frame is dropped and the state is untouched; when it is
true the frame goes to `handle_audio`.  Handling `listen:start{mode}` sets
listening to true at both layers, records the given mode, and clears the
controller's audio buffer. -/
theorem c5_audio_gate_and_listen_start :
    (∀ (s : FullState) (π : Pipeline) (f : Nat), s.wsListening = false →
        handle_wire s π (.binary f) = (s, [])) ∧
    (∀ (s : FullState) (π : Pipeline) (f : Nat), s.alive = true → s.wsListening = true →
        handle_wire s π (.binary f) = handle_audio s π f) ∧
    (∀ (s : FullState) (π : Pipeline) (kvs : Json) (mode : JVal),
        s.alive = true →
        jGet kvs "type" = some (.str "listen") →
        jGet kvs "state" = some (.str "start") →
        jGet kvs "mode" = some mode →
        handle_wire s π (.text (some (.obj kvs))) =
          ({ s with wsListening := true, wsListenMode := some mode,
                    buffer := some [],
                    info := some [("listen_mode", mode), ("listening", .bool true)] }, [])) := by
  refine ⟨?_, ?_, ?_⟩
  · intro s π f hl
    cases ha : s.alive <;> simp [handle_wire, ha, hl]
  · intro s π f ha hl
    simp [handle_wire, ha, hl]
  · intro s π kvs mode ha h1 h2 h3
    have hhas : jHas kvs "type" = true := jHas_of_jGet h1
    simp [handle_wire, ha, parse_message, pyContains, hhas, is_listen_start_message,
      is_listen_stop_message, isStrV, h1, h2, jHas_of_jGet h3, handle_message, jGetD, h3]

/-- Closed instance of the C5 theorem: a frame while not listening is
dropped, and a concrete `listen:start{mode:manual}` sets both layers'
listening state and clears the buffer. -/
theorem c5_audio_gate_and_listen_start_witness :
    handle_wire (connectedState "cli" "dev") nullPipeline (.binary 3) =
      (connectedState "cli" "dev", []) ∧
    handle_wire { connectedState "cli" "dev" with buffer := some [4] } nullPipeline
        (.text (some (.obj [("type", JVal.str "listen"), ("state", JVal.str "start"),
          ("mode", JVal.str "manual")]))) =
      ({ { connectedState "cli" "dev" with buffer := some [4] } with
          wsListening := true, wsListenMode := some (JVal.str "manual"),
          buffer := some [],
          info := some [("listen_mode", JVal.str "manual"), ("listening", JVal.bool true)] },
        []) :=
  ⟨c5_audio_gate_and_listen_start.1 _ nullPipeline 3 rfl,
    c5_audio_gate_and_listen_start.2.2 _ nullPipeline _ _ rfl rfl rfl rfl⟩

/-- C7: a connection declaring a protocol version different from the
expected `"1"` is closed with the version-mismatch code 1002 before a
`ClientSession` is created, before it is registered, and before the connect
notification or the message loop (hence any audio/message handler) is
reached; a connection with no declared version proceeds through the rest of
the handshake exactly as a matching one does. -/
theorem c7_version_gate :
    (∀ (authEnabled : Bool) (secret : String) (h : ConnHeaders) (hello : HelloOutcome)
        (v : String),
        h.protocolVersion = some v → v ≠ expectedVersionStr →
        handle_connection authEnabled secret h hello =
          rejectResult 1002 "Invalid protocol version" ∧
        (rejectResult 1002 "Invalid protocol version").sessionCreated = false ∧
        (rejectResult 1002 "Invalid protocol version").registeredDuringHello = false ∧
        (rejectResult 1002 "Invalid protocol version").admitted = false ∧
        (rejectResult 1002 "Invalid protocol version").connectFired = false) ∧
    (∀ (authEnabled : Bool) (secret : String) (h : ConnHeaders) (hello : HelloOutcome),
        h.protocolVersion = none →
        handle_connection authEnabled secret h hello =
          handle_connection authEnabled secret
            { h with protocolVersion := some expectedVersionStr } hello) := by
  constructor
  · intro authEnabled secret h hello v hv hne
    refine ⟨?_, rfl, rfl, rfl, rfl⟩
    simp [handle_connection, hv, hne]
  · intro authEnabled secret h hello hv
    simp [handle_connection, hv, auth_and_hello]

/-- Closed instance of the C7 theorem: version "2" is rejected with 1002 and
nothing is created; an absent version header behaves like version "1". -/
theorem c7_version_gate_witness :
    (handle_connection false "sk" ⟨some "2", none, none, none⟩ .timeout =
        rejectResult 1002 "Invalid protocol version" ∧
      (rejectResult 1002 "Invalid protocol version").sessionCreated = false ∧
      (rejectResult 1002 "Invalid protocol version").registeredDuringHello = false ∧
      (rejectResult 1002 "Invalid protocol version").admitted = false ∧
      (rejectResult 1002 "Invalid protocol version").connectFired = false) ∧
    handle_connection false "sk" ⟨none, none, none, none⟩ .timeout =
      handle_connection false "sk"
        { ConnHeaders.mk none none none none with protocolVersion := some expectedVersionStr }
        .timeout :=
  ⟨c7_version_gate.1 false "sk" ⟨some "2", none, none, none⟩ .timeout "2" rfl (by decide),
    c7_version_gate.2 false "sk" ⟨none, none, none, none⟩ .timeout rfl⟩

/-- C3 counterexample: a connection with a matching version and no auth that
then times out waiting for hello.  Contrary to the claim, the session DOES
appear in the registry while the handshake is still incomplete (it is
registered before the hello wait), and the close uses the websocket default
normal-closure code 1000, not a distinct hello-timeout code. -/
theorem c3_hello_timeout_counterexample :
    (handle_connection false "your-secret-key-change-this"
        ⟨some "1", none, none, none⟩ .timeout).registeredDuringHello = true ∧
    (handle_connection false "your-secret-key-change-this"
        ⟨some "1", none, none, none⟩ .timeout).closeCode = some (1000, "") :=
  ⟨rfl, rfl⟩

/-- C3 (amended): a connection that passes the version and auth gates but
sends no valid hello (timeout, invalid JSON, or a JSON object that is not a
valid hello) is closed with the websocket default normal-closure code
(1000, ""); its session IS created and registered in the registry before the
hello wait, but is removed again on the failure, the connect notification
never fires, and the message loop is never reached. -/
theorem c3_hello_timeout_amended (authEnabled : Bool) (secret : String)
    (h : ConnHeaders) (hello : HelloOutcome)
    (hv : h.protocolVersion = none ∨ h.protocolVersion = some expectedVersionStr)
    (ha : authEnabled = false ∨
      ((h.authorization.getD "").startsWith "Bearer " = true ∧
        (h.authorization.getD "").drop 7 = secret))
    (hh : wait_for_hello hello = .notHello) :
    handle_connection authEnabled secret h hello =
      { closeCode := some (1000, ""), sessionCreated := true,
        registeredDuringHello := true, admitted := false,
        registeredAfter := false, connectFired := false } := by
  have hreg : register_and_hello hello =
      { closeCode := some (1000, ""), sessionCreated := true,
        registeredDuringHello := true, admitted := false,
        registeredAfter := false, connectFired := false } := by
    simp [register_and_hello, hh]
  have hauth : auth_and_hello authEnabled secret h hello =
      { closeCode := some (1000, ""), sessionCreated := true,
        registeredDuringHello := true, admitted := false,
        registeredAfter := false, connectFired := false } := by
    rcases ha with ha | ⟨hb, htok⟩
    · simp [auth_and_hello, ha, hreg]
    · simp [auth_and_hello, hb, htok, hreg]
  rcases hv with hv | hv <;> simp [handle_connection, hv, hauth]

/-- Closed instance of the amended C3 theorem: hello timeout on a
version-matching, auth-disabled connection. -/
theorem c3_hello_timeout_amended_witness :
    handle_connection false "your-secret-key-change-this"
        ⟨some "1", none, none, none⟩ .invalidJson =
      { closeCode := some (1000, ""), sessionCreated := true,
        registeredDuringHello := true, admitted := false,
        registeredAfter := false, connectFired := false } :=
  c3_hello_timeout_amended false "your-secret-key-change-this"
    ⟨some "1", none, none, none⟩ .invalidJson (Or.inr rfl) (Or.inl rfl) rfl

theorem no_tts_no_audio_sarHead (s : FullState) (r : Json) :
    ∀ e ∈ sarHead s r, isTtsMsg e = false ∧ isAudioSend e = false := by
  intro e he
  unfold sarHead at he
  simp only [List.mem_append] at he
  have hsend : ∀ (m : Json), e ∈ sendTo s m → e = Effect.sendMsg m := by
    intro m hm
    unfold sendTo at hm
    split at hm <;> simp_all
  rcases he with ((he | he) | he) | he
  · split at he
    · rw [hsend _ he]; exact ⟨rfl, rfl⟩
    · simp at he
  · split at he
    · rw [hsend _ he]; exact ⟨rfl, rfl⟩
    · simp at he
  · split at he
    · rw [hsend _ he]; exact ⟨rfl, rfl⟩
    · simp at he
  · split at he
    · split at he <;> (rw [hsend _ he]; exact ⟨rfl, rfl⟩)
    · simp at he

/-- C4 counterexample: a pipeline result with no output text at all (the
empty result dictionary) delivered on a live session produces NO messages —
in particular there is no end-of-response (TTS-stop) message, contrary to the
claim that one is still emitted. -/
theorem c4_empty_result_counterexample :
    send_agent_response (connectedState "cli" "dev") nullPipeline [] = [] ∧
    (send_agent_response (connectedState "cli" "dev") nullPipeline []).countP
      isTtsStopMsg = 0 :=
  ⟨rfl, rfl⟩

/-- C4 (amended): for every pipeline result that carries no truthy output
text, no start-of-response, sentence, or audio messages are emitted — but no
end-of-response (TTS-stop) message is emitted either: the client receives no
TTS-type message at all and no terminal marker. -/
theorem c4_no_text_no_tts (s : FullState) (π : Pipeline) (r : Json)
    (h : truthyOpt (jGet r "response_text") = false) :
    (send_agent_response s π r).countP isTtsMsg = 0 ∧
    (send_agent_response s π r).countP isAudioSend = 0 := by
  have hsar : send_agent_response s π r = sarHead s r ++ [] := by
    unfold send_agent_response
    rw [h]
    simp
  rw [hsar, List.append_nil]
  constructor
  · exact List.countP_eq_zero.mpr (fun e he => by
      simp [(no_tts_no_audio_sarHead s r e he).1])
  · exact List.countP_eq_zero.mpr (fun e he => by
      simp [(no_tts_no_audio_sarHead s r e he).2])

/-- Closed instance of the amended C4 theorem: a result carrying only a
transcription produces no TTS-type and no audio messages. -/
theorem c4_no_text_no_tts_witness :
    (send_agent_response (connectedState "cli" "dev") nullPipeline
        [("transcription", JVal.str "hi")]).countP isTtsMsg = 0 ∧
    (send_agent_response (connectedState "cli" "dev") nullPipeline
        [("transcription", JVal.str "hi")]).countP isAudioSend = 0 :=
  c4_no_text_no_tts _ nullPipeline _ (by decide)

/-- C6 counterexample: the text payload `"prototype"` is valid JSON (a JSON
string) that has no `type` field, yet `parse_message` succeeds and returns it
unchanged: Python's `"type" not in message` is a substring test on strings,
so decoding does not fail where the claim says it must. -/
theorem c6_parse_counterexample :
    parse_message (some (.str "prototype")) = .ok (.str "prototype") := rfl

/-- C6 (amended): restricted to text payloads that are invalid JSON or parse
to a JSON object, decoding fails with the malformed-payload error iff the
payload is not valid JSON or the object lacks a `type` key (payloads parsing
to non-object JSON values escape this regime: strings get a substring test,
arrays an element test, and other values an uncaught TypeError); whenever
decoding fails with the malformed-payload error, the message loop drops the
message with a warning and the session state is unchanged, with no effects. -/
theorem c6_malformed_payload :
    (∀ raw : Option JVal,
        (raw = none ∨ ∃ kvs : Json, raw = some (.obj kvs)) →
        (parse_message raw = .malformed ↔
          (raw = none ∨ ∃ kvs : Json, raw = some (.obj kvs) ∧ jHas kvs "type" = false))) ∧
    (∀ (s : FullState) (π : Pipeline) (raw : Option JVal),
        parse_message raw = .malformed →
        handle_wire s π (.text raw) = (s, [])) := by
  constructor
  · intro raw hshape
    rcases hshape with rfl | ⟨kvs, rfl⟩
    · simp [parse_message]
    · cases hk : jHas kvs "type" <;>
        simp [parse_message, pyContains, hk]
  · intro s π raw hm
    cases ha : s.alive <;> simp [handle_wire, ha, hm]

/-- Closed instance of the amended C6 theorem: an object payload without a
`type` key is rejected as malformed, and the message loop drops it leaving a
connected session unchanged. -/
theorem c6_malformed_payload_witness :
    (parse_message (some (.obj [("state", JVal.str "start")])) = .malformed ↔
      (some (JVal.obj [("state", JVal.str "start")]) = none ∨
        ∃ kvs : Json, some (JVal.obj [("state", JVal.str "start")]) = some (.obj kvs) ∧
          jHas kvs "type" = false)) ∧
    handle_wire (connectedState "cli" "dev") nullPipeline
        (.text (some (.obj [("state", JVal.str "start")]))) =
      (connectedState "cli" "dev", []) :=
  ⟨c6_malformed_payload.1 (some (.obj [("state", JVal.str "start")]))
      (Or.inr ⟨_, rfl⟩),
    c6_malformed_payload.2 _ nullPipeline _ rfl⟩

/-- C8: a `listen:detect` message whose `source` equals "text" invokes the
pipeline's text entry point directly with the message's text, leaves the
entire session state (audio buffer, listening flag, listen mode, registry
entries) unchanged, and the only effects are that invocation and the
delivery of its result. -/
theorem c8_detect_text_bypass (s : FullState) (π : Pipeline) (m : Json)
    (h1 : jGet m "type" = some (.str "listen"))
    (h2 : jGet m "state" = some (.str "detect"))
    (h3 : jGet m "source" = some (.str "text")) :
    handle_message s π m =
      (s, Effect.pipelineText (jGetD m "text" (.str "")) ::
            send_agent_response s π (π.textResult (jGetD m "text" (.str "")))) := by
  simp [handle_message, h1, h2, h3, isStrV]

/-- Closed instance of the C8 theorem: a concrete text wake-word detect on a
connected, non-listening session. -/
theorem c8_detect_text_bypass_witness :
    handle_message (connectedState "cli" "dev") nullPipeline
        [("type", JVal.str "listen"), ("state", JVal.str "detect"),
          ("text", JVal.str "hey there"), ("source", JVal.str "text")] =
      (connectedState "cli" "dev",
        Effect.pipelineText (jGetD [("type", JVal.str "listen"), ("state", JVal.str "detect"),
            ("text", JVal.str "hey there"), ("source", JVal.str "text")] "text" (.str "")) ::
          send_agent_response (connectedState "cli" "dev") nullPipeline
            (nullPipeline.textResult (jGetD [("type", JVal.str "listen"),
              ("state", JVal.str "detect"), ("text", JVal.str "hey there"),
              ("source", JVal.str "text")] "text" (.str "")))) :=
  c8_detect_text_bypass _ nullPipeline _ rfl rfl rfl

/-- C9 (implicit): a text payload that parses to a JSON object with a `type`
key is accepted by `parse_message` and returned unchanged, whatever the type
value is; when that value is none of the kinds the layers dispatch on
(listen, abort, iot, function_call — which includes every unknown kind), the
message loop and the controller both ignore the message: the whole session
state is unchanged and there are no effects. -/
theorem c9_unknown_kind_ignored (s : FullState) (π : Pipeline) (kvs : Json) (tv : JVal)
    (ht : jGet kvs "type" = some tv)
    (h1 : isStrV (jGet kvs "type") "listen" = false)
    (h2 : isStrV (jGet kvs "type") "abort" = false)
    (h3 : isStrV (jGet kvs "type") "iot" = false)
    (h4 : isStrV (jGet kvs "type") "function_call" = false) :
    parse_message (some (.obj kvs)) = .ok (.obj kvs) ∧
    handle_wire s π (.text (some (.obj kvs))) = (s, []) := by
  have hhas : jHas kvs "type" = true := jHas_of_jGet ht
  constructor
  · simp [parse_message, pyContains, hhas]
  · cases ha : s.alive <;>
      simp [handle_wire, ha, parse_message, pyContains, hhas,
        is_listen_start_message, is_listen_stop_message, handle_message,
        h1, h2, h3, h4]

/-- Closed instance of the C9 theorem: a message of unknown kind "foobar" is
parsed successfully and ignored by a connected session. -/
theorem c9_unknown_kind_ignored_witness :
    parse_message (some (.obj [("type", JVal.str "foobar"), ("x", JVal.num 3)])) =
      .ok (.obj [("type", JVal.str "foobar"), ("x", JVal.num 3)]) ∧
    handle_wire (connectedState "cli" "dev") nullPipeline
        (.text (some (.obj [("type", JVal.str "foobar"), ("x", JVal.num 3)]))) =
      (connectedState "cli" "dev", []) :=
  c9_unknown_kind_ignored _ nullPipeline _ (JVal.str "foobar") rfl rfl rfl rfl rfl

/-- The `listen` message with state `start` and no `mode` field. -/
def listenStartNoModeMsg : Json := [("type", .str "listen"), ("state", .str "start")]

/-- The controller-side state a modeless listen-start leaves behind on top
of state `s`: buffer cleared, controller entry listening in default mode
auto, transport fields untouched. -/
def afterModelessStart (s : FullState) : FullState :=
  { s with buffer := some [],
           info := some [("listen_mode", JVal.str "auto"), ("listening", JVal.bool true)] }

/-- C10 (implicit): a listen-start message without a `mode` field is not
recognized by the transport layer (`is_listen_start_message` is false), so
the transport's listening flag stays false and a subsequent binary frame is
not forwarded to the audio handler — while the controller simultaneously
records the session as listening with the default mode "auto" and clears the
buffer: the two layers' listening states diverge. -/
theorem c10_modeless_start_divergence (s : FullState) (π : Pipeline) (f : Nat)
    (ha : s.alive = true) (hl : s.wsListening = false) :
    is_listen_start_message listenStartNoModeMsg = false ∧
    handle_wire s π (.text (some (.obj listenStartNoModeMsg))) =
      (afterModelessStart s, []) ∧
    (afterModelessStart s).wsListening = false ∧
    jGet ((afterModelessStart s).info.getD []) "listening" = some (JVal.bool true) ∧
    jGet ((afterModelessStart s).info.getD []) "listen_mode" = some (JVal.str "auto") ∧
    handle_wire (afterModelessStart s) π (.binary f) = (afterModelessStart s, []) := by
  refine ⟨rfl, ?_, hl, ?_, ?_, ?_⟩
  · simp [handle_wire, ha, parse_message, pyContains, jHas, jGet, listenStartNoModeMsg,
      is_listen_start_message, is_listen_stop_message, isStrV, handle_message, jGetD,
      afterModelessStart]
  · simp [afterModelessStart, jGet]
  · simp [afterModelessStart, jGet]
  · have ha2 : (afterModelessStart s).alive = true := ha
    have hl2 : (afterModelessStart s).wsListening = false := hl
    simp [handle_wire, ha2, hl2]

/-- Closed instance of the C10 theorem on a freshly connected session. -/
theorem c10_modeless_start_divergence_witness :
    is_listen_start_message listenStartNoModeMsg = false ∧
    handle_wire (connectedState "cli" "dev") nullPipeline
        (.text (some (.obj listenStartNoModeMsg))) =
      (afterModelessStart (connectedState "cli" "dev"), []) ∧
    (afterModelessStart (connectedState "cli" "dev")).wsListening = false ∧
    jGet ((afterModelessStart (connectedState "cli" "dev")).info.getD []) "listening" =
      some (JVal.bool true) ∧
    jGet ((afterModelessStart (connectedState "cli" "dev")).info.getD []) "listen_mode" =
      some (JVal.str "auto") ∧
    handle_wire (afterModelessStart (connectedState "cli" "dev")) nullPipeline (.binary 5) =
      (afterModelessStart (connectedState "cli" "dev"), []) :=
  c10_modeless_start_divergence (connectedState "cli" "dev") nullPipeline 5 rfl rfl

theorem flushes_nil : flushes [] = [] := rfl

theorem flushes_cons_audio (b : List Nat) (w : Option JVal) (l : List Effect) :
    flushes (Effect.pipelineAudio b w :: l) = b :: flushes l := rfl

theorem flushes_cons_sendMsg (m : Json) (l : List Effect) :
    flushes (Effect.sendMsg m :: l) = flushes l := rfl

theorem flushes_cons_pipelineText (t : JVal) (l : List Effect) :
    flushes (Effect.pipelineText t :: l) = flushes l := rfl

theorem flushes_cons_pipelineMessage (k : String) (m : Json) (l : List Effect) :
    flushes (Effect.pipelineMessage k m :: l) = flushes l := rfl

theorem flushes_cons_pipelineFunctionCall (fn args : JVal) (l : List Effect) :
    flushes (Effect.pipelineFunctionCall fn args :: l) = flushes l := rfl

/-- A flush can only come out of `process_audio_buffer` when the buffer entry
is nonempty and the websocket session is still registered. -/
theorem process_audio_buffer_flushes (s : FullState) (π : Pipeline) (w : Option JVal)
    (h : flushes (process_audio_buffer s π w).2 ≠ []) :
    (s.buffer.getD []) ≠ [] ∧ s.wsRegistered = true := by
  cases hb : s.buffer with
  | none => exfalso; apply h; simp [process_audio_buffer, hb, flushes_nil]
  | some buf =>
    cases buf with
    | nil => exfalso; apply h; simp [process_audio_buffer, hb, flushes_nil]
    | cons a l =>
      cases hr : s.wsRegistered with
      | false => exfalso; apply h; simp [process_audio_buffer, hb, hr, flushes_nil]
      | true => simp [hb]

/-- Only-if direction of the flush policy at the controller dispatch: any
message whose handling produces a flush must be a `listen:stop` or a
non-text `listen:detect`, the buffer must be nonempty, and the websocket
session registered.  Every other message kind — listen:start, text-source
detect, unknown listen states, abort, iot, function_call, unknown types —
produces no flush. -/
theorem handle_message_flush_inversion (s : FullState) (π : Pipeline) (m : Json)
    (h : flushes (handle_message s π m).2 ≠ []) :
    isStrV (jGet m "type") "listen" = true ∧
    (isStrV (jGet m "state") "stop" = true ∨
      (isStrV (jGet m "state") "detect" = true ∧
        isStrV (jGet m "source") "text" = false)) ∧
    (s.buffer.getD []) ≠ [] ∧ s.wsRegistered = true := by
  by_cases t1 : isStrV (jGet m "type") "listen" = true
  · by_cases u1 : isStrV (jGet m "state") "start" = true
    · exfalso; apply h; simp [handle_message, t1, u1, flushes_nil]
    · by_cases u2 : isStrV (jGet m "state") "stop" = true
      · refine ⟨t1, Or.inl u2, ?_⟩
        by_cases he : (s.buffer.getD []).isEmpty = true
        · exfalso; apply h
          cases hinfo : s.info <;> simp [handle_message, t1, u1, u2, hinfo, he, flushes_nil]
        · cases hinfo : s.info with
          | none =>
            have heq : handle_message s π m = process_audio_buffer s π none := by
              simp [handle_message, t1, u1, u2, hinfo, he]
            rw [heq] at h
            exact process_audio_buffer_flushes s π none h
          | some inf =>
            have heq : handle_message s π m =
                process_audio_buffer
                  { s with info := some (jInsert inf "listening" (.bool false)) } π none := by
              simp [handle_message, t1, u1, u2, hinfo, he]
            rw [heq] at h
            exact process_audio_buffer_flushes
              { s with info := some (jInsert inf "listening" (.bool false)) } π none h
      · by_cases u3 : isStrV (jGet m "state") "detect" = true
        · by_cases usrc : isStrV (jGet m "source") "text" = true
          · exfalso; apply h
            simp [handle_message, t1, u1, u2, u3, usrc,
              flushes_cons_pipelineText, sar_flushes]
          · have hsrc : isStrV (jGet m "source") "text" = false := by
              cases hx : isStrV (jGet m "source") "text" with
              | false => rfl
              | true => exact absurd hx usrc
            refine ⟨t1, Or.inr ⟨u3, hsrc⟩, ?_⟩
            cases hb : s.buffer with
            | none =>
              exfalso; apply h
              simp [handle_message, t1, u1, u2, u3, usrc, hb, flushes_nil]
            | some buf =>
              have heq : handle_message s π m =
                  process_audio_buffer s π (some (jGetD m "text" (.str ""))) := by
                simp [handle_message, t1, u1, u2, u3, usrc, hb]
              rw [heq] at h
              have hc := process_audio_buffer_flushes s π (some (jGetD m "text" (.str ""))) h
              rw [hb] at hc
              exact hc
        · exfalso; apply h; simp [handle_message, t1, u1, u2, u3, flushes_nil]
  · exfalso; apply h
    by_cases t2 : isStrV (jGet m "type") "abort" = true
    · cases hb : s.buffer <;> cases hr : s.wsRegistered <;>
        simp [handle_message, t1, t2, sendTo, hb, hr, flushes_nil, flushes_cons_sendMsg]
    · by_cases t3 : isStrV (jGet m "type") "iot" = true
      · by_cases d1 : jHas m "descriptors" = true
        · simp [handle_message, t1, t2, t3, d1, flushes_cons_pipelineMessage, flushes_nil]
        · by_cases d2 : jHas m "states" = true
          · simp [handle_message, t1, t2, t3, d1, d2,
              flushes_cons_pipelineMessage, flushes_nil]
          · by_cases d3 : jHas m "commands" = true
            · simp [handle_message, t1, t2, t3, d1, d2, d3,
                flushes_cons_pipelineMessage, flushes_nil]
            · simp [handle_message, t1, t2, t3, d1, d2, d3, flushes_nil]
      · by_cases t4 : isStrV (jGet m "type") "function_call" = true
        · simp [handle_message, t1, t2, t3, t4,
            flushes_cons_pipelineFunctionCall, sar_flushes]
        · simp [handle_message, t1, t2, t3, t4, flushes_nil]

/-- Only-if direction of the auto-mode flush policy over EVERY wire item: if
handling any inbound item flushes the buffer while the controller records
auto mode, then the item was a binary frame, accepted while listening, that
brought the buffered count to 10 or more — or a parsed `listen:stop` or
non-text `listen:detect` object arriving on a nonempty buffer; in both cases
the websocket session was registered.  In particular abort, iot,
function_call, listen:start, text-source detect, unknown kinds, unknown
listen states, malformed or non-object payloads and dropped frames never
flush. -/
theorem auto_flush_only_if (s : FullState) (π : Pipeline) (w : WireItem)
    (hm : isStrV (jGet (s.info.getD []) "listen_mode") "auto" = true)
    (h : flushes (handle_wire s π w).2 ≠ []) :
    (∃ f, w = .binary f ∧ s.wsListening = true ∧
      10 ≤ (s.buffer.getD []).length + 1 ∧ s.wsRegistered = true) ∨
    (∃ kvs : Json, w = .text (some (.obj kvs)) ∧
      isStrV (jGet kvs "type") "listen" = true ∧
      (isStrV (jGet kvs "state") "stop" = true ∨
        (isStrV (jGet kvs "state") "detect" = true ∧
          isStrV (jGet kvs "source") "text" = false)) ∧
      (s.buffer.getD []) ≠ [] ∧ s.wsRegistered = true) := by
  by_cases ha : s.alive = true
  case neg => exfalso; apply h; simp [handle_wire, ha, flushes_nil]
  case pos =>
    cases w with
    | binary f =>
      by_cases hl : s.wsListening = true
      case neg => exfalso; apply h; simp [handle_wire, ha, hl, flushes_nil]
      case pos =>
        left
        have hwire : handle_wire s π (.binary f) = handle_audio s π f := by
          simp [handle_wire, ha, hl]
        rw [hwire] at h
        unfold handle_audio at h
        dsimp only at h
        split at h
        next hc =>
          have hreg :=
            (process_audio_buffer_flushes
              { s with buffer := some ((s.buffer.getD []) ++ [f]) } π none h).2
          refine ⟨f, rfl, hl, ?_, hreg⟩
          have hmode : jGet (s.info.getD []) "listen_mode" = some (JVal.str "auto") :=
            isStrV_eq_true hm
          rcases hc with hc | hc
          · exfalso
            have hc2 : isStrV (jGet (s.info.getD []) "listen_mode") "realtime" = true := hc
            rw [hmode] at hc2
            simp [isStrV] at hc2
          · have hth := hc.2
            simp only [List.length_append, List.length_cons, List.length_nil] at hth
            omega
        next hc =>
          exfalso; apply h; simp [flushes_nil]
    | text raw =>
      cases raw with
      | none => exfalso; apply h; simp [handle_wire, ha, parse_message, flushes_nil]
      | some v =>
        cases v with
        | null =>
          exfalso; apply h
          simp [handle_wire, ha, parse_message, pyContains, flushes_nil]
        | bool b =>
          exfalso; apply h
          simp [handle_wire, ha, parse_message, pyContains, flushes_nil]
        | num n =>
          exfalso; apply h
          simp [handle_wire, ha, parse_message, pyContains, flushes_nil]
        | str t =>
          exfalso; apply h
          by_cases hsub : strIsSubstr "type" t = true <;>
            simp [handle_wire, ha, parse_message, pyContains, hsub, flushes_nil]
        | arr xs =>
          exfalso; apply h
          by_cases harr :
              (xs.any (fun x => match x with | .str u => u == "type" | _ => false)) = true <;>
            simp [handle_wire, ha, parse_message, pyContains, harr, flushes_nil]
        | obj kvs =>
          by_cases hk : jHas kvs "type" = true
          · right
            by_cases hst : is_listen_start_message kvs = true
            · have heq : handle_wire s π (.text (some (.obj kvs))) =
                  handle_message
                    { s with wsListening := true, wsListenMode := jGet kvs "mode" } π kvs := by
                simp [handle_wire, ha, parse_message, pyContains, hk, hst]
              rw [heq] at h
              have hinv := handle_message_flush_inversion
                { s with wsListening := true, wsListenMode := jGet kvs "mode" } π kvs h
              exact ⟨kvs, rfl, hinv.1, hinv.2.1, hinv.2.2⟩
            · by_cases hsp : is_listen_stop_message kvs = true
              · have heq : handle_wire s π (.text (some (.obj kvs))) =
                    handle_message { s with wsListening := false } π kvs := by
                  simp [handle_wire, ha, parse_message, pyContains, hk, hst, hsp]
                rw [heq] at h
                have hinv := handle_message_flush_inversion
                  { s with wsListening := false } π kvs h
                exact ⟨kvs, rfl, hinv.1, hinv.2.1, hinv.2.2⟩
              · have heq : handle_wire s π (.text (some (.obj kvs))) =
                    handle_message s π kvs := by
                  simp [handle_wire, ha, parse_message, pyContains, hk, hst, hsp]
                rw [heq] at h
                have hinv := handle_message_flush_inversion s π kvs h
                exact ⟨kvs, rfl, hinv.1, hinv.2.1, hinv.2.2⟩
          · exfalso; apply h
            simp [handle_wire, ha, parse_message, pyContains, hk, flushes_nil]

/-- The `listen:start{mode:auto}` message. -/
def listenStartAutoMsg : Json :=
  [("type", .str "listen"), ("state", .str "start"), ("mode", .str "auto")]

/-- The `listen:stop` message. -/
def listenStopMsg : Json := [("type", .str "listen"), ("state", .str "stop")]

/-- The C2 scenario trace: `listen:start{mode:auto}` followed by 12 binary
frames. -/
def c2Trace : List WireItem :=
  [.text (some (.obj listenStartAutoMsg)),
   .binary 0, .binary 1, .binary 2, .binary 3, .binary 4, .binary 5,
   .binary 6, .binary 7, .binary 8, .binary 9, .binary 10, .binary 11]

/-- The session state right after `listen:start{mode:auto}` on a connected
session. -/
def c2Mid : FullState :=
  { alive := true, wsRegistered := true, wsListening := true,
    wsListenMode := some (.str "auto"), buffer := some [],
    info := some [("listen_mode", .str "auto"), ("listening", .bool true)] }

/-- `c2Mid` with the given buffered frames. -/
def c2Buf (l : List Nat) : FullState := { c2Mid with buffer := some l }

theorem auto_frame_flush (s : FullState) (π : Pipeline) (f : Nat)
    (ha : s.alive = true) (hr : s.wsRegistered = true) (hl : s.wsListening = true)
    (hm : isStrV (jGet (s.info.getD []) "listen_mode") "auto" = true) :
    flushes (handle_wire s π (.binary f)).2 =
      (if 10 ≤ (s.buffer.getD []).length + 1 then [(s.buffer.getD []) ++ [f]] else []) ∧
    (handle_wire s π (.binary f)).1.buffer =
      (if 10 ≤ (s.buffer.getD []).length + 1 then some []
       else some ((s.buffer.getD []) ++ [f])) := by
  have hmode : jGet (s.info.getD []) "listen_mode" = some (JVal.str "auto") :=
    isStrV_eq_true hm
  have hwire : handle_wire s π (.binary f) = handle_audio s π f := by
    simp [handle_wire, ha, hl]
  rw [hwire]
  unfold handle_audio
  simp only [hmode, isStrV]
  by_cases hlen : 10 ≤ (s.buffer.getD []).length + 1
  · have hcond : 10 ≤ ((s.buffer.getD []) ++ [f]).length := by
      simp only [List.length_append, List.length_cons, List.length_nil]
      omega
    rw [if_pos (by simp; omega)]
    have hne : ((s.buffer.getD []) ++ [f]).isEmpty = false := by
      simp [List.isEmpty_iff]
    unfold process_audio_buffer
    simp only [hne, hr]
    rw [if_pos hlen, if_pos hlen]
    simp [flushes_cons_audio, sar_flushes]
  · have hcond : ¬ 10 ≤ ((s.buffer.getD []) ++ [f]).length := by
      simp only [List.length_append, List.length_cons, List.length_nil]
      omega
    rw [if_neg (by simp; omega)]
    rw [if_neg hlen, if_neg hlen]
    exact ⟨rfl, rfl⟩

theorem auto_stop_flush (s : FullState) (π : Pipeline) (m : Json)
    (ha : s.alive = true) (hr : s.wsRegistered = true)
    (h1 : jGet m "type" = some (.str "listen"))
    (h2 : jGet m "state" = some (.str "stop")) :
    flushes (handle_wire s π (.text (some (.obj m)))).2 =
      (if (s.buffer.getD []).isEmpty then [] else [s.buffer.getD []]) ∧
    (handle_wire s π (.text (some (.obj m)))).1.buffer =
      (if (s.buffer.getD []).isEmpty then s.buffer else some []) := by
  have hwire : handle_wire s π (.text (some (.obj m))) =
      handle_message { s with wsListening := false } π m := by
    simp [handle_wire, ha, parse_message, pyContains, jHas_of_jGet h1,
      is_listen_start_message, is_listen_stop_message, isStrV, h1, h2]
  have cListen : isStrV (jGet m "type") "listen" = true := by rw [h1]; rfl
  have cStart : isStrV (jGet m "state") "start" = false := by rw [h2]; rfl
  have cStop : isStrV (jGet m "state") "stop" = true := by rw [h2]; rfl
  rw [hwire]
  cases hinfo : s.info with
  | none =>
    cases hbuf : s.buffer with
    | none => simp [handle_message, cListen, cStart, cStop, hinfo, hbuf, flushes_nil]
    | some buf =>
      cases buf with
      | nil => simp [handle_message, cListen, cStart, cStop, hinfo, hbuf, flushes_nil]
      | cons a l =>
        simp [handle_message, process_audio_buffer, cListen, cStart, cStop, hinfo,
          hbuf, hr, flushes_cons_audio, sar_flushes]
  | some inf =>
    cases hbuf : s.buffer with
    | none => simp [handle_message, cListen, cStart, cStop, hinfo, hbuf, flushes_nil]
    | some buf =>
      cases buf with
      | nil => simp [handle_message, cListen, cStart, cStop, hinfo, hbuf, flushes_nil]
      | cons a l =>
        simp [handle_message, process_audio_buffer, cListen, cStart, cStop, hinfo,
          hbuf, hr, flushes_cons_audio, sar_flushes]

theorem auto_detect_flush (s : FullState) (π : Pipeline) (m : Json)
    (ha : s.alive = true) (hr : s.wsRegistered = true)
    (h1 : jGet m "type" = some (.str "listen"))
    (h2 : jGet m "state" = some (.str "detect"))
    (h3 : isStrV (jGet m "source") "text" = false) :
    flushes (handle_wire s π (.text (some (.obj m)))).2 =
      (if (s.buffer.getD []).isEmpty then [] else [s.buffer.getD []]) ∧
    (handle_wire s π (.text (some (.obj m)))).1.buffer =
      (if (s.buffer.getD []).isEmpty then s.buffer else some []) := by
  have hwire : handle_wire s π (.text (some (.obj m))) = handle_message s π m := by
    simp [handle_wire, ha, parse_message, pyContains, jHas_of_jGet h1,
      is_listen_start_message, is_listen_stop_message, isStrV, h1, h2]
  have cListen : isStrV (jGet m "type") "listen" = true := by rw [h1]; rfl
  have cStart : isStrV (jGet m "state") "start" = false := by rw [h2]; rfl
  have cStop : isStrV (jGet m "state") "stop" = false := by rw [h2]; rfl
  have cDetect : isStrV (jGet m "state") "detect" = true := by rw [h2]; rfl
  rw [hwire]
  cases hbuf : s.buffer with
  | none => simp [handle_message, cListen, cStart, cStop, cDetect, h3, hbuf, flushes_nil]
  | some buf =>
    cases buf with
    | nil =>
      simp [handle_message, process_audio_buffer, cListen, cStart, cStop, cDetect, h3, hbuf, flushes_nil]
    | cons a l =>
      simp [handle_message, process_audio_buffer, cListen, cStart, cStop, cDetect, h3,
        hbuf, hr, flushes_cons_audio, sar_flushes]

theorem auto_scenario (π : Pipeline) (c d : String) :
    flushes (runWire π (connectedState c d) c2Trace).2 =
      [[0, 1, 2, 3, 4, 5, 6, 7, 8, 9]] ∧
    (runWire π (connectedState c d) c2Trace).1.buffer = some [10, 11] := by
  have h0 : handle_wire (connectedState c d) π (.text (some (.obj listenStartAutoMsg))) =
      (c2Mid, []) := rfl
  have h1 : handle_wire c2Mid π (.binary 0) = (c2Buf [0], []) := rfl
  have h2 : handle_wire (c2Buf [0]) π (.binary 1) = (c2Buf [0, 1], []) := rfl
  have h3 : handle_wire (c2Buf [0, 1]) π (.binary 2) = (c2Buf [0, 1, 2], []) := rfl
  have h4 : handle_wire (c2Buf [0, 1, 2]) π (.binary 3) = (c2Buf [0, 1, 2, 3], []) := rfl
  have h5 : handle_wire (c2Buf [0, 1, 2, 3]) π (.binary 4) =
      (c2Buf [0, 1, 2, 3, 4], []) := rfl
  have h6 : handle_wire (c2Buf [0, 1, 2, 3, 4]) π (.binary 5) =
      (c2Buf [0, 1, 2, 3, 4, 5], []) := rfl
  have h7 : handle_wire (c2Buf [0, 1, 2, 3, 4, 5]) π (.binary 6) =
      (c2Buf [0, 1, 2, 3, 4, 5, 6], []) := rfl
  have h8 : handle_wire (c2Buf [0, 1, 2, 3, 4, 5, 6]) π (.binary 7) =
      (c2Buf [0, 1, 2, 3, 4, 5, 6, 7], []) := rfl
  have h9 : handle_wire (c2Buf [0, 1, 2, 3, 4, 5, 6, 7]) π (.binary 8) =
      (c2Buf [0, 1, 2, 3, 4, 5, 6, 7, 8], []) := rfl
  have h10 : handle_wire (c2Buf [0, 1, 2, 3, 4, 5, 6, 7, 8]) π (.binary 9) =
      (c2Mid, Effect.pipelineAudio [0, 1, 2, 3, 4, 5, 6, 7, 8, 9] none ::
        send_agent_response c2Mid π
          (π.audioResult [0, 1, 2, 3, 4, 5, 6, 7, 8, 9] none)) := rfl
  have h11 : handle_wire c2Mid π (.binary 10) = (c2Buf [10], []) := rfl
  have h12 : handle_wire (c2Buf [10]) π (.binary 11) = (c2Buf [10, 11], []) := rfl
  have hrun : runWire π (connectedState c d) c2Trace =
      (c2Buf [10, 11],
        Effect.pipelineAudio [0, 1, 2, 3, 4, 5, 6, 7, 8, 9] none ::
          (send_agent_response c2Mid π
            (π.audioResult [0, 1, 2, 3, 4, 5, 6, 7, 8, 9] none) ++ [])) := by
    simp only [c2Trace, runWire, h0, h1, h2, h3, h4, h5, h6, h7, h8, h9, h10, h11, h12,
      List.nil_append, List.cons_append, List.append_nil]
  rw [hrun]
  constructor
  · rw [flushes_cons_audio]
    simp [sar_flushes]
  · rfl

/-- C2 counterexample: after `listen:start{mode:auto}` (session in auto mode,
empty buffer), an explicit `listen:stop` event produces NO flush — contrary
to the claim that a flush occurs whenever an explicit listen:stop event
occurs. -/
theorem c2_stop_empty_counterexample :
    flushes (runWire nullPipeline (connectedState "cli" "dev")
        [.text (some (.obj listenStartAutoMsg)), .text (some (.obj listenStopMsg))]).2
      = [] ∧
    isStrV (jGet ((runWire nullPipeline (connectedState "cli" "dev")
        [.text (some (.obj listenStartAutoMsg)),
          .text (some (.obj listenStopMsg))]).1.info.getD []) "listen_mode") "auto"
      = true :=
  ⟨rfl, rfl⟩

/-- C2 (amended): for every session whose controller-recorded listen mode is
auto, a flush occurs if and only if a frame arrival (accepted while
listening, websocket session registered) brings the buffered-frame count to
10 (or more), or an explicit listen:stop or wake-word (non-text detect)
event occurs while the buffer is nonempty and the session is registered.
The first three conjuncts give the "if" direction (with the exact flush
contents) for those three event shapes; the fourth conjunct is the "only if"
direction over EVERY wire item, so no other event — abort, iot,
function_call, listen:start, text-source detect, unknown kinds or states,
malformed or non-object payloads, dropped frames — ever flushes.  The buffer
is empty immediately after any flush; and after `listen:start{mode:auto}`
followed by 12 accepted frames, exactly one flush fires (after frame 10,
carrying the first 10 frames) and the buffer holds the last 2 frames
afterward. -/
theorem c2_auto_flush_policy :
    (∀ (s : FullState) (π : Pipeline) (f : Nat),
      s.alive = true → s.wsRegistered = true → s.wsListening = true →
      isStrV (jGet (s.info.getD []) "listen_mode") "auto" = true →
      flushes (handle_wire s π (.binary f)).2 =
        (if 10 ≤ (s.buffer.getD []).length + 1 then [(s.buffer.getD []) ++ [f]] else []) ∧
      (handle_wire s π (.binary f)).1.buffer =
        (if 10 ≤ (s.buffer.getD []).length + 1 then some []
         else some ((s.buffer.getD []) ++ [f]))) ∧
    (∀ (s : FullState) (π : Pipeline) (m : Json),
      s.alive = true → s.wsRegistered = true →
      jGet m "type" = some (.str "listen") →
      jGet m "state" = some (.str "stop") →
      flushes (handle_wire s π (.text (some (.obj m)))).2 =
        (if (s.buffer.getD []).isEmpty then [] else [s.buffer.getD []]) ∧
      (handle_wire s π (.text (some (.obj m)))).1.buffer =
        (if (s.buffer.getD []).isEmpty then s.buffer else some [])) ∧
    (∀ (s : FullState) (π : Pipeline) (m : Json),
      s.alive = true → s.wsRegistered = true →
      jGet m "type" = some (.str "listen") →
      jGet m "state" = some (.str "detect") →
      isStrV (jGet m "source") "text" = false →
      flushes (handle_wire s π (.text (some (.obj m)))).2 =
        (if (s.buffer.getD []).isEmpty then [] else [s.buffer.getD []]) ∧
      (handle_wire s π (.text (some (.obj m)))).1.buffer =
        (if (s.buffer.getD []).isEmpty then s.buffer else some [])) ∧
    (∀ (s : FullState) (π : Pipeline) (w : WireItem),
      isStrV (jGet (s.info.getD []) "listen_mode") "auto" = true →
      flushes (handle_wire s π w).2 ≠ [] →
      (∃ f, w = .binary f ∧ s.wsListening = true ∧
        10 ≤ (s.buffer.getD []).length + 1 ∧ s.wsRegistered = true) ∨
      (∃ kvs : Json, w = .text (some (.obj kvs)) ∧
        isStrV (jGet kvs "type") "listen" = true ∧
        (isStrV (jGet kvs "state") "stop" = true ∨
          (isStrV (jGet kvs "state") "detect" = true ∧
            isStrV (jGet kvs "source") "text" = false)) ∧
        (s.buffer.getD []) ≠ [] ∧ s.wsRegistered = true)) ∧
    (∀ (π : Pipeline) (c d : String),
      flushes (runWire π (connectedState c d) c2Trace).2 =
        [[0, 1, 2, 3, 4, 5, 6, 7, 8, 9]] ∧
      (runWire π (connectedState c d) c2Trace).1.buffer = some [10, 11]) :=
  ⟨auto_frame_flush, auto_stop_flush, auto_detect_flush, auto_flush_only_if, auto_scenario⟩

/-- Closed instance of the C2 theorem: the 12-frame auto-mode scenario with
the concrete null pipeline, a frame arrival at buffer size 9 flushing all 10
frames, and the only-if conjunct applied to that same flushing step. -/
theorem c2_auto_flush_policy_witness :
    (flushes (handle_wire (c2Buf [0, 1, 2, 3, 4, 5, 6, 7, 8]) nullPipeline (.binary 9)).2 =
      (if 10 ≤ ((c2Buf [0, 1, 2, 3, 4, 5, 6, 7, 8]).buffer.getD []).length + 1 then
        [((c2Buf [0, 1, 2, 3, 4, 5, 6, 7, 8]).buffer.getD []) ++ [9]] else []) ∧
    (handle_wire (c2Buf [0, 1, 2, 3, 4, 5, 6, 7, 8]) nullPipeline (.binary 9)).1.buffer =
      (if 10 ≤ ((c2Buf [0, 1, 2, 3, 4, 5, 6, 7, 8]).buffer.getD []).length + 1 then some []
       else some (((c2Buf [0, 1, 2, 3, 4, 5, 6, 7, 8]).buffer.getD []) ++ [9]))) ∧
    ((∃ f, WireItem.binary 9 = WireItem.binary f ∧
        (c2Buf [0, 1, 2, 3, 4, 5, 6, 7, 8]).wsListening = true ∧
        10 ≤ ((c2Buf [0, 1, 2, 3, 4, 5, 6, 7, 8]).buffer.getD []).length + 1 ∧
        (c2Buf [0, 1, 2, 3, 4, 5, 6, 7, 8]).wsRegistered = true) ∨
      (∃ kvs : Json, WireItem.binary 9 = WireItem.text (some (.obj kvs)) ∧
        isStrV (jGet kvs "type") "listen" = true ∧
        (isStrV (jGet kvs "state") "stop" = true ∨
          (isStrV (jGet kvs "state") "detect" = true ∧
            isStrV (jGet kvs "source") "text" = false)) ∧
        ((c2Buf [0, 1, 2, 3, 4, 5, 6, 7, 8]).buffer.getD []) ≠ [] ∧
        (c2Buf [0, 1, 2, 3, 4, 5, 6, 7, 8]).wsRegistered = true)) ∧
    (flushes (runWire nullPipeline (connectedState "cli" "dev") c2Trace).2 =
      [[0, 1, 2, 3, 4, 5, 6, 7, 8, 9]] ∧
    (runWire nullPipeline (connectedState "cli" "dev") c2Trace).1.buffer = some [10, 11]) :=
  ⟨c2_auto_flush_policy.1 (c2Buf [0, 1, 2, 3, 4, 5, 6, 7, 8]) nullPipeline 9
      rfl rfl rfl (by decide),
    c2_auto_flush_policy.2.2.2.1 (c2Buf [0, 1, 2, 3, 4, 5, 6, 7, 8]) nullPipeline
      (.binary 9) (by decide) (by decide),
    c2_auto_flush_policy.2.2.2.2 nullPipeline "cli" "dev"⟩

end XiaozhiAgent
